import Mathlib

/-!
Verification of the barcode decoding and pricing-resolution pipeline of the
HOH retail backend.

The development shallowly embeds, in Lean, the logic of
`app/services/barcode_decoder.py` (class `BarcodeDecoder`) and of the
`scan_barcode` endpoint of `app/routers/article_code.py` (the
decode → promoter → article → price resolution chain), together with the
pieces of Python semantics the code relies on: `int(str)` parsing,
string slicing, truthiness of `None`/`0`/`""`, `str.strip`,
`f"{n:05d}"` formatting, and the IEEE binary64 arithmetic behind
`weight_grams / 1000.0` and `int(weight * 1000)`.

Numbers are modelled as `Nat`/`Int`/`ℚ`; the two binary64 roundings in the
weight path are modelled exactly with integer arithmetic (round to nearest,
ties to even, 53-bit significand), which is exact for the magnitudes this
pipeline produces (no overflow or subnormals there).
-/

/-! ### Python string and int primitives -/

/-- The ASCII-range characters Python's `int(str)` and `str.strip()` treat as
whitespace (`\t`, `\n`, `\v`, `\f`, `\r`, `\x1c`–`\x1f`, space; U+0085 also
included).  The model covers ASCII barcodes, which is all the decoder sees. -/
def isPySpace (c : Char) : Bool :=
  c = ' ' || c = '\t' || c = '\n' || c = '\r' ||
  c.toNat = 11 || c.toNat = 12 || c.toNat = 28 || c.toNat = 29 ||
  c.toNat = 30 || c.toNat = 31 || c.toNat = 133

/-- `str.strip()` / the whitespace stripping done by `int(str)`:
drop leading and trailing whitespace. -/
def pyStripList (l : List Char) : List Char :=
  ((l.dropWhile isPySpace).reverse.dropWhile isPySpace).reverse

/-- Python `s.strip()`. -/
def pyStrip (s : String) : String := String.mk (pyStripList s.data)

/-- Numeric value of a decimal digit character. -/
def digitVal (c : Char) : Nat := c.toNat - 48

/-- Digit-run loop of Python `int(str)`: after the first digit, an underscore
may separate digits (`1_234`) but may not repeat, lead, or trail. -/
def digitsLoop (acc : Nat) : List Char → Option Nat
  | [] => some acc
  | c :: rest =>
    if c = '_' then
      match rest with
      | [] => none
      | c2 :: rest2 =>
        if c2.isDigit then digitsLoop (acc * 10 + digitVal c2) rest2 else none
    else if c.isDigit then digitsLoop (acc * 10 + digitVal c) rest
    else none

/-- Unsigned digit run of Python `int(str)`: must start with a digit. -/
def parseUDigits (l : List Char) : Option Nat :=
  match l with
  | [] => none
  | c :: rest => if c.isDigit then digitsLoop (digitVal c) rest else none

/-- Python `int(s)` on a string (base 10): strip whitespace, optional single
`+`/`-` sign, then a digit run with optional underscore separators;
`ValueError` is `none`. -/
def pyIntList (l : List Char) : Option Int :=
  match pyStripList l with
  | [] => none
  | c :: rest =>
    if c = '+' then (parseUDigits rest).map (fun n => (n : Int))
    else if c = '-' then (parseUDigits rest).map (fun n => -(n : Int))
    else (parseUDigits (c :: rest)).map (fun n => (n : Int))

/-- Python `int(s)`. -/
def pyInt (s : String) : Option Int := pyIntList s.data

/-- Python slice `s[a:b]` for `0 ≤ a ≤ b` (clamps at the string's end). -/
def pySlice (s : String) (a b : Nat) : String :=
  String.mk ((s.data.drop a).take (b - a))

/-- Boolean list-prefix test (`str.startswith` on the underlying chars). -/
def listPre : List Char → List Char → Bool
  | [], _ => true
  | _ :: _, [] => false
  | c :: cs, d :: ds => c == d && listPre cs ds

/-- Python `s.startswith(p)`. -/
def pyStartsWith (s p : String) : Bool := listPre p.data s.data

/-! ### `BarcodeDecoder` (`app/services/barcode_decoder.py`)

Each `_decode_*` static method returns `(article_code, weight_in_kg,
store_type)`.  In the source the weight is the float `weight_grams / 1000.0`;
since the gram field is an integer of at most 6 digits, that float determines
and is determined by the gram count, so the model carries the exact gram
count in `weight_grams` (the binary64 value is recovered where the code
later computes with it, see `weightIntOfGrams`). -/

/-- Result triple of `BarcodeDecoder.decode` and of each `_decode_*` method. -/
structure DecodeResult where
  article_code : Option Int
  weight_grams : Option Int
  store_type : String
deriving DecidableEq

/-- The `(None, None, "")` triple a `_decode_*` method returns on no match. -/
def noMatch : DecodeResult := ⟨none, none, ""⟩

/-- `BarcodeDecoder._decode_reliance_smart`: prefix `]C12`, length ≥ 21,
article code `barcode[7:16]`, weight grams `barcode[16:21]`. -/
def decode_reliance_smart (barcode : String) : DecodeResult :=
  if pyStartsWith barcode "]C12" ∧ 21 ≤ barcode.data.length then
    match pyInt (pySlice barcode 7 16) with
    | none => noMatch
    | some a =>
      match pyInt (pySlice barcode 16 21) with
      | none => noMatch
      | some g => ⟨some a, some g, "reliance_smart"⟩
  else noMatch

/-- `BarcodeDecoder._decode_smart_alternative`: prefix `]C10`, length ≥ 24,
article code `barcode[10:19]`, weight grams `barcode[19:24]`. -/
def decode_smart_alternative (barcode : String) : DecodeResult :=
  if pyStartsWith barcode "]C10" ∧ 24 ≤ barcode.data.length then
    match pyInt (pySlice barcode 10 19) with
    | none => noMatch
    | some a =>
      match pyInt (pySlice barcode 19 24) with
      | none => noMatch
      | some g => ⟨some a, some g, "smart_alternative"⟩
  else noMatch

/-- `BarcodeDecoder._decode_reliance_fresh`: prefix `21`, length ≥ 21,
article code `barcode[7:16]`, weight grams `barcode[16:21]`. -/
def decode_reliance_fresh (barcode : String) : DecodeResult :=
  if pyStartsWith barcode "21" ∧ 21 ≤ barcode.data.length then
    match pyInt (pySlice barcode 7 16) with
    | none => noMatch
    | some a =>
      match pyInt (pySlice barcode 16 21) with
      | none => noMatch
      | some g => ⟨some a, some g, "reliance_fresh"⟩
  else noMatch

/-- `BarcodeDecoder._decode_star_bazar`: prefix `21`, length ≥ 17,
article code `barcode[2:6]`, weight grams `barcode[12:17]`. -/
def decode_star_bazar (barcode : String) : DecodeResult :=
  if pyStartsWith barcode "21" ∧ 17 ≤ barcode.data.length then
    match pyInt (pySlice barcode 2 6) with
    | none => noMatch
    | some a =>
      match pyInt (pySlice barcode 12 17) with
      | none => noMatch
      | some g => ⟨some a, some g, "star_bazar"⟩
  else noMatch

/-- `BarcodeDecoder._decode_food_square`: prefix `W`, length ≥ 13,
article code `barcode[1:8]`, weight grams `barcode[8:13]`. -/
def decode_food_square (barcode : String) : DecodeResult :=
  if pyStartsWith barcode "W" ∧ 13 ≤ barcode.data.length then
    match pyInt (pySlice barcode 1 8) with
    | none => noMatch
    | some a =>
      match pyInt (pySlice barcode 8 13) with
      | none => noMatch
      | some g => ⟨some a, some g, "food_square"⟩
  else noMatch

/-- `BarcodeDecoder._decode_rapsap`: prefix `W`, length exactly 12,
article code `barcode[2:7]`, weight grams `barcode[7:12]`. -/
def decode_rapsap (barcode : String) : DecodeResult :=
  if pyStartsWith barcode "W" ∧ barcode.data.length = 12 then
    match pyInt (pySlice barcode 2 7) with
    | none => noMatch
    | some a =>
      match pyInt (pySlice barcode 7 12) with
      | none => noMatch
      | some g => ⟨some a, some g, "rapsap"⟩
  else noMatch

/-- `BarcodeDecoder._decode_mrdpl`: prefix `H`, length ≥ 12,
article code `barcode[1:6]`, weight grams `barcode[6:12]`. -/
def decode_mrdpl (barcode : String) : DecodeResult :=
  if pyStartsWith barcode "H" ∧ 12 ≤ barcode.data.length then
    match pyInt (pySlice barcode 1 6) with
    | none => noMatch
    | some a =>
      match pyInt (pySlice barcode 6 12) with
      | none => noMatch
      | some g => ⟨some a, some g, "mrdpl"⟩
  else noMatch

/-- `BarcodeDecoder.decode`: empty input is `(None, None, "unknown")`;
otherwise the seven `_decode_*` methods are tried in the source's order
(first to set `article_code is not None` wins); if none matched, the whole
string is passed to `int(...)`, giving `(int(barcode), None, "unknown")` on
success and `(None, None, "unknown")` on `ValueError`. -/
def decode (barcode : String) : DecodeResult :=
  if barcode = "" then ⟨none, none, "unknown"⟩
  else
    let r1 := decode_smart_alternative barcode
    if r1.article_code.isSome then r1 else
    let r2 := decode_reliance_smart barcode
    if r2.article_code.isSome then r2 else
    let r3 := decode_reliance_fresh barcode
    if r3.article_code.isSome then r3 else
    let r4 := decode_star_bazar barcode
    if r4.article_code.isSome then r4 else
    let r5 := decode_food_square barcode
    if r5.article_code.isSome then r5 else
    let r6 := decode_rapsap barcode
    if r6.article_code.isSome then r6 else
    let r7 := decode_mrdpl barcode
    if r7.article_code.isSome then r7 else
    match pyInt barcode with
    | some n => ⟨some n, none, "unknown"⟩
    | none => ⟨none, none, "unknown"⟩

/-! ### IEEE binary64 model for the weight path

Line 199 of `app/routers/article_code.py` computes
`f"{int(weight * 1000):05d}" if weight else "00000"` where `weight` is the
float `weight_grams / 1000.0` produced by the decoder.  Both float
operations round to nearest, ties to even; they are modelled exactly with
integer arithmetic (gram counts fit far below 2^53, and the quotients lie
in the normal range of binary64, so a 53-bit significand model is exact). -/

/-- Round `a / b` (with `b > 0`) to the nearest integer, ties to even. -/
def rneDiv (a b : Nat) : Nat :=
  let q := a / b
  let r := a % b
  if 2 * r < b then q else if b < 2 * r then q + 1
  else if q % 2 = 0 then q else q + 1

/-- Greatest `e ∈ [-60, 60]` with `2 ^ e ≤ num / den` (for `num, den > 0`);
the binary exponent of every float this pipeline produces lies well inside
that range. -/
def findExpDiv (num den : Nat) : Int :=
  ((((List.range 121).map (fun i => (i : Int) - 60)).filter
    (fun e => if 0 ≤ e then decide (den * 2 ^ e.toNat ≤ num)
              else decide (den ≤ num * 2 ^ (-e).toNat))).getLast?).getD (-60)

/-- The binary64 value nearest to `num / den` (round to nearest, ties to
even), returned as an exact fraction `(p, q)` with value `p / q`. -/
def floatValDiv (num den : Nat) : Nat × Nat :=
  if num = 0 then (0, 1)
  else
    let e := findExpDiv num den
    let m := if e ≤ 52 then rneDiv (num * 2 ^ (52 - e).toNat) den
             else rneDiv num (den * 2 ^ (e - 52).toNat)
    if 52 ≤ e then (m * 2 ^ (e - 52).toNat, 1) else (m, 2 ^ (52 - e).toNat)

/-- `int((g / 1000.0) * 1000)` for a nonnegative gram count `g`: the float
division, the float multiplication, then truncation toward zero (`int()`),
which on a nonnegative float is the floor, i.e. `Nat` division. -/
def weightIntOfGrams (g : Nat) : Nat :=
  let d := floatValDiv g 1000
  let m := floatValDiv (d.1 * 1000) d.2
  m.1 / m.2

example : weightIntOfGrams 110 = 110 := by decide
example : weightIntOfGrams 1001 = 1000 := by decide
example : weightIntOfGrams 123456 = 123456 := by decide

/-! ### Decimal formatting (`f"{n:05d}"`) -/

/-- Little-endian decimal digits of `n` (with enough fuel). -/
def natDigitsAux : Nat → Nat → List Nat
  | 0, _ => []
  | _ + 1, 0 => []
  | fuel + 1, n => n % 10 :: natDigitsAux fuel (n / 10)

/-- Decimal string of a natural number (`str(n)` for `n ≥ 0`). -/
def natDecimal (n : Nat) : String :=
  if n = 0 then "0"
  else String.mk (((natDigitsAux 30 n).reverse).map (fun d => Char.ofNat (48 + d)))

/-- Pad a string with leading zeros to a minimum width. -/
def zfillNat (w : Nat) (s : String) : String :=
  if s.data.length < w then
    String.mk (List.replicate (w - s.data.length) '0' ++ s.data)
  else s

/-- Python `f"{n:05d}"`: sign first, zeros between sign and digits, total
width at least 5 (wider numbers are not cut). -/
def py05d (n : Int) : String :=
  if n < 0 then "-" ++ zfillNat 4 (natDecimal n.natAbs)
  else zfillNat 5 (natDecimal n.toNat)

/-- Line 199 of `scan_barcode`:
`weight_code = f"{int(weight * 1000):05d}" if weight else "00000"`.
The float `weight` is truthy exactly when the gram count is nonzero, and
`int(weight * 1000)` is `weightIntOfGrams` (mirrored through the sign,
binary64 rounding and `int()` truncation both being odd functions). -/
def weight_code_of (w : Option Int) : String :=
  match w with
  | none => "00000"
  | some g =>
    if g = 0 then "00000"
    else if 0 < g then py05d (weightIntOfGrams g.toNat)
    else py05d (-(weightIntOfGrams g.natAbs : Int))

example : weight_code_of (some 110) = "00110" := by decide
example : weight_code_of (some 1001) = "01000" := by decide
example : weight_code_of (some 123456) = "123456" := by decide
example : weight_code_of none = "00000" := by decide
example : weight_code_of (some 0) = "00000" := by decide

/-! ### `store_type.replace("_", " ").title()` -/

/-- Python `s.replace("_", " ")` (single-character case). -/
def pyReplaceUnderscore (s : String) : String :=
  String.mk (s.data.map (fun c => if c = '_' then ' ' else c))

/-- Worker for `str.title()`: uppercase a letter that follows a non-letter,
lowercase the rest (ASCII model). -/
def pyTitleGo : Bool → List Char → List Char
  | _, [] => []
  | prevAlpha, c :: rest =>
    (if c.isAlpha then (if prevAlpha then c.toLower else c.toUpper) else c) ::
      pyTitleGo c.isAlpha rest

/-- Python `s.title()` (ASCII model). -/
def pyTitle (s : String) : String := String.mk (pyTitleGo false s.data)

example : pyTitle (pyReplaceUnderscore "star_bazar") = "Star Bazar" := by decide

/-! ### The `scan_barcode` pipeline (`app/routers/article_code.py`)

The database is an external read-only collaborator; it is abstracted as an
oracle of the four query shapes the endpoint issues (each models a
`db.query(...).filter(...).first()` call, so "first match" semantics live
inside the oracle).  Each stage also reports how many oracle calls it made,
so the resource claim can be stated about the very same definition. -/

/-- One row of `price_consolidated` as the endpoint reads it:
`pricelist`, `price`, and nullable `gst`. -/
structure PriceRecord where
  pricelist : String
  price : ℚ
  gst : Option ℚ
deriving DecidableEq

/-- The external lookup collaborator (`db.query(...).first()` calls). -/
structure ScanOracle where
  /-- `Promoter.point_of_sale.ilike(f"%{store_name}%") → .promoter` -/
  promoterByStore : String → Option String
  /-- `ArticleCode.article_codes == code, ArticleCode.promoter == p → .products` -/
  articleByCodePromoter : Int → String → Option String
  /-- `PriceConsolidated.product == name, PriceConsolidated.pricelist == pl` -/
  priceByProductPricelist : String → String → Option PriceRecord
  /-- `PriceConsolidated.product == name` (any pricelist, first match) -/
  priceByProduct : String → Option PriceRecord

/-- The `HTTPException`s `scan_barcode` can raise. -/
inductive ScanError where
  /-- 400 "Barcode cannot be empty" -/
  | emptyBarcode : ScanError
  /-- 400 "Unable to decode barcode" -/
  | undecodable : ScanError
  /-- 404 "Unable to determine promoter" -/
  | promoterUnresolved : ScanError
  /-- 404 "Article code not found" -/
  | articleUnresolved : ScanError
deriving DecidableEq

/-- The fields of `BarcodeScanResponse` the endpoint fills in
(`weight` is carried as the exact gram count, see `DecodeResult`). -/
structure ScanResponse where
  product : String
  article_code : Int
  store_name : Option String
  store_type : String
  promoter : String
  pricelist : Option String
  price : Option ℚ
  gst : Option ℚ
  price_with_gst : Option ℚ
  weight : Option Int
  weight_code : String
  barcode_format : String
deriving DecidableEq

/-- Oracle calls made by one invocation, per stage. -/
structure Calls where
  promoter : Nat
  article : Nat
  price : Nat
deriving DecidableEq

/-- Total number of external lookups. -/
def Calls.total (c : Calls) : Nat := c.promoter + c.article + c.price

/-- The `store_type_to_promoter` dict (lines 95–103, duplicated verbatim at
lines 122–130 of the source). -/
def store_type_to_promoter (t : String) : Option String :=
  if t = "reliance_smart" then some "Smart & Essentials Barcode"
  else if t = "smart_alternative" then some "Smart Alternate Barcode"
  else if t = "reliance_fresh" then some "FP & Signature Barcode"
  else if t = "star_bazar" then some "Star Bazaar Barcode"
  else if t = "food_square" then some "Food Square Barcode"
  else if t = "rapsap" then some "Rapsap"
  else if t = "mrdpl" then some "Magson Barcode"
  else none

/-- The `promoter_to_pricelist` dict (lines 153–161); `.get(p, [])`. -/
def promoter_to_pricelist (p : String) : List String :=
  if p = "Smart & Essentials Barcode" then ["Smart Bazaar", "Essentials"]
  else if p = "Smart Alternate Barcode" then ["Smart Bazaar"]
  else if p = "FP & Signature Barcode" then ["Signature Plus", "FP JWD, Powai, 1MG"]
  else if p = "Star Bazaar Barcode" then ["Star Bazaar"]
  else if p = "Food Square Barcode" then ["Food Square"]
  else if p = "Rapsap" then ["Rapsap"]
  else if p = "Magson Barcode" then ["Magson"]
  else []

/-- Python truthiness of an `Optional[str]`: `None` and `""` are falsy. -/
def optStrTruthy : Option String → Bool
  | none => false
  | some s => !(s == "")

/-- Step 2 of `scan_barcode` (lines 82–111): `promoter_name = None`; if
`store_name` is truthy, take the promoter of the first `point_of_sale`
substring match; if `promoter_name` is still falsy, fall back to
`store_type_to_promoter`.  Returns the final `promoter_name` (where `none`
means the 404 will be raised) and the lookup count. -/
def resolvePromoter (o : ScanOracle) (store_name : Option String)
    (store_type : String) : Option String × Nat :=
  let qr : Option String × Nat :=
    match store_name with
    | some s => if s == "" then (none, 0) else (o.promoterByStore s, 1)
    | none => (none, 0)
  if optStrTruthy qr.1 then qr
  else (store_type_to_promoter store_type, qr.2)

/-- Step 3 of `scan_barcode` (lines 113–147): exact
`(article_code, promoter)` lookup; if it misses and `store_name` is truthy,
recompute the barcode-format promoter and, when it is truthy and differs
from the promoter already tried, retry with it; a second-lookup hit updates
`promoter_name`.  Returns `(products, promoter_name)` on success. -/
def resolveArticle (o : ScanOracle) (article_code : Int)
    (promoter_name : String) (store_name : Option String)
    (store_type : String) : Option (String × String) × Nat :=
  match o.articleByCodePromoter article_code promoter_name with
  | some prod => (some (prod, promoter_name), 1)
  | none =>
    if optStrTruthy store_name then
      match store_type_to_promoter store_type with
      | some bp =>
        if !(bp == "") && !(bp == promoter_name) then
          match o.articleByCodePromoter article_code bp with
          | some prod => (some (prod, bp), 2)
          | none => (none, 2)
        else (none, 1)
      | none => (none, 1)
    else (none, 1)

/-- The `for pricelist_name in pricelist_names` loop (lines 174–180):
probe each candidate pricelist in order, stopping at the first hit. -/
def searchPriceLoop (o : ScanOracle) (product : String) :
    List String → Option PriceRecord × Nat
  | [] => (none, 0)
  | pl :: rest =>
    match o.priceByProductPricelist product pl with
    | some r => (some r, 1)
    | none =>
      let t := searchPriceLoop o product rest
      (t.1, t.2 + 1)

/-- Lines 169–186: candidate-pricelist probing
(`promoter_to_pricelist.get(promoter_name, [])`), then the
any-pricelist fallback query when no candidate matched. -/
def searchPrice (o : ScanOracle) (product : String) (promoter_name : String) :
    Option PriceRecord × Nat :=
  let t := searchPriceLoop o product (promoter_to_pricelist promoter_name)
  match t.1 with
  | some r => (some r, t.2)
  | none => (o.priceByProduct product, t.2 + 1)

/-- Round-half-to-even of a rational, the rounding of Python's `round`. -/
def rneQ (q : ℚ) : Int :=
  let f := ⌊q⌋
  if q - f < 1/2 then f else if (1:ℚ)/2 < q - f then f + 1
  else if f % 2 = 0 then f else f + 1

/-- `round(x, 2)`. -/
def round2 (q : ℚ) : ℚ := (rneQ (q * 100) : ℚ) / 100

/-- The four price fields a `resolvePrice` outcome carries. -/
structure PriceOutcome where
  price : Option ℚ
  gst : Option ℚ
  price_with_gst : Option ℚ
  pricelist : Option String
deriving DecidableEq

/-- Step 4 of `scan_barcode` (lines 163–196): `pricelist` defaults to
`store_name`; if a record was found, `price` and `pricelist` come from the
record, and when its `gst` is not null,
`price_with_gst = round(price + price * gst, 2)`. -/
def resolvePrice (o : ScanOracle) (product : String) (promoter_name : String)
    (fallbackLabel : Option String) : PriceOutcome × Nat :=
  let t := searchPrice o product promoter_name
  match t.1 with
  | some r =>
    ({ price := some r.price, gst := r.gst,
       price_with_gst :=
         match r.gst with
         | some g => some (round2 (r.price + r.price * g))
         | none => none,
       pricelist := some r.pricelist }, t.2)
  | none =>
    ({ price := none, gst := none, price_with_gst := none,
       pricelist := fallbackLabel }, t.2)

/-- The `scan_barcode` endpoint (lines 59–216), with the database abstracted
as `o`.  Returns the response or the raised error, together with the
per-stage oracle call counts.  `if not article_code` makes both a missing
article code and a decoded article code of `0` raise the 400. -/
def scan (o : ScanOracle) (barcode : String) (store_name : Option String) :
    Except ScanError ScanResponse × Calls :=
  if barcode = "" ∨ pyStrip barcode = "" then (.error .emptyBarcode, ⟨0, 0, 0⟩)
  else
    let barcode_text := pyStrip barcode
    let d := decode barcode_text
    match d.article_code with
    | none => (.error .undecodable, ⟨0, 0, 0⟩)
    | some a =>
      if a = 0 then (.error .undecodable, ⟨0, 0, 0⟩)
      else
        let pr := resolvePromoter o store_name d.store_type
        match pr.1 with
        | none => (.error .promoterUnresolved, ⟨pr.2, 0, 0⟩)
        | some pn =>
          if pn == "" then (.error .promoterUnresolved, ⟨pr.2, 0, 0⟩)
          else
            let ar := resolveArticle o a pn store_name d.store_type
            match ar.1 with
            | none => (.error .articleUnresolved, ⟨pr.2, ar.2, 0⟩)
            | some pp =>
              let po := resolvePrice o pp.1 pp.2 store_name
              (.ok { product := pp.1, article_code := a,
                     store_name := store_name, store_type := d.store_type,
                     promoter := pp.2, pricelist := po.1.pricelist,
                     price := po.1.price, gst := po.1.gst,
                     price_with_gst := po.1.price_with_gst,
                     weight := d.weight_grams,
                     weight_code := weight_code_of d.weight_grams,
                     barcode_format := pyTitle (pyReplaceUnderscore d.store_type) },
               ⟨pr.2, ar.2, po.2⟩)

/-- An oracle with empty tables (used by concrete evaluations). -/
def emptyOracle : ScanOracle :=
  ⟨fun _ => none, fun _ _ => none, fun _ _ => none, fun _ => none⟩

example : (scan emptyOracle "0" (some "Store")).1 = .error .undecodable := rfl
example : (scan emptyOracle "" (some "Store")).1 = .error .emptyBarcode := rfl
example : (scan emptyOracle "  " none).1 = .error .emptyBarcode := rfl
example : (scan emptyOracle "12345" none).1 = .error .promoterUnresolved := rfl
example : (scan emptyOracle "W902979200110" none).1 = .error .articleUnresolved := rfl

example : decode "W902979200110" = ⟨some 9029792, some 110, "food_square"⟩ := by decide

/-! ### Symbolic payloads: digit lists and their parsed values -/

/-- The decimal digit character with value `x` (for `x < 10`). -/
def dchar (x : Nat) : Char := Char.ofNat (48 + x)

/-- Value of a big-endian decimal digit list (what `int` returns on it). -/
def natVal (l : List Nat) : Nat := l.foldl (fun a x => a * 10 + x) 0

/-- A barcode built from a literal prefix and a numeric payload. -/
def digitsStr (p : List Char) (l : List Nat) : String :=
  String.mk (p ++ l.map dchar)

/-- `decode`'s weight field read back as kilograms, `weight_grams / 1000.0`
(exact rational value; the source's float is the binary64 rounding of it). -/
def weightKgQ (r : DecodeResult) : Option ℚ :=
  r.weight_grams.map (fun g => (g : ℚ) / 1000)

lemma dchar_facts (x : Nat) (hx : x < 10) :
    (dchar x).isDigit = true ∧ ¬dchar x = '_' ∧ digitVal (dchar x) = x ∧
      isPySpace (dchar x) = false ∧ ¬dchar x = '+' ∧ ¬dchar x = '-' := by
  interval_cases x <;> exact ⟨by decide, by decide, by decide, by decide, by decide, by decide⟩

lemma digitsLoop_digits (l : List Nat) (hl : ∀ x ∈ l, x < 10) (acc : Nat) :
    digitsLoop acc (l.map dchar) = some (l.foldl (fun a x => a * 10 + x) acc) := by
  induction l generalizing acc with
  | nil => simp [digitsLoop]
  | cons x xs ih =>
    obtain ⟨h1, h2, h3, -, -, -⟩ := dchar_facts x (hl x (by simp))
    rw [List.map_cons, digitsLoop.eq_def]
    simp only [if_neg h2, if_pos h1, h3, List.foldl_cons]
    exact ih (fun y hy => hl y (by simp [hy])) (acc * 10 + x)

lemma parseUDigits_digits (l : List Nat) (hl : ∀ x ∈ l, x < 10) (hne : l ≠ []) :
    parseUDigits (l.map dchar) = some (natVal l) := by
  cases l with
  | nil => exact absurd rfl hne
  | cons x xs =>
    obtain ⟨h1, -, h3, -, -, -⟩ := dchar_facts x (hl x (by simp))
    simp only [List.map_cons, parseUDigits, h1, if_true, h3]
    have := digitsLoop_digits xs (fun y hy => hl y (by simp [hy])) x
    simpa [natVal] using this

lemma dropWhile_eq_self_of_head (p : Char → Bool) (l : List Char)
    (h : ∀ x ∈ l, p x = false) : l.dropWhile p = l := by
  cases l with
  | nil => rfl
  | cons c cs => simp [List.dropWhile_cons, h c (by simp)]

lemma pyStripList_digits (l : List Nat) (hl : ∀ x ∈ l, x < 10) :
    pyStripList (l.map dchar) = l.map dchar := by
  have hmem : ∀ c ∈ l.map dchar, isPySpace c = false := by
    intro c hc
    obtain ⟨x, hx, rfl⟩ := List.mem_map.mp hc
    exact (dchar_facts x (hl x hx)).2.2.2.1
  unfold pyStripList
  rw [dropWhile_eq_self_of_head _ _ hmem,
    dropWhile_eq_self_of_head _ _ (fun x hx => hmem x (List.mem_reverse.mp hx)),
    List.reverse_reverse]

lemma data_mk (l : List Char) : (String.mk l).data = l := rfl

lemma pyInt_digit_list (l : List Nat) (hl : ∀ x ∈ l, x < 10) (hne : l ≠ []) :
    pyInt (String.mk (l.map dchar)) = some ((natVal l : Nat) : Int) := by
  cases l with
  | nil => exact absurd rfl hne
  | cons x xs =>
    obtain ⟨-, -, -, -, h5, h6⟩ := dchar_facts x (hl x (by simp))
    have hstrip := pyStripList_digits (x :: xs) hl
    have hparse := parseUDigits_digits (x :: xs) hl (by simp)
    unfold pyInt pyIntList
    rw [data_mk, hstrip, List.map_cons]
    simp only [if_neg h5, if_neg h6]
    rw [← List.map_cons, hparse]
    rfl

lemma data_digitsStr (p : List Char) (l : List Nat) :
    (digitsStr p l).data = p ++ l.map dchar := rfl

lemma length_digitsStr (p : List Char) (l : List Nat) :
    (digitsStr p l).data.length = p.length + l.length := by
  simp [data_digitsStr]

lemma slice_digitsStr (p : List Char) (l : List Nat) (a b : Nat)
    (hpa : p.length ≤ a) :
    pySlice (digitsStr p l) a b =
      String.mk (((l.drop (a - p.length)).take (b - a)).map dchar) := by
  unfold pySlice
  rw [data_digitsStr, List.drop_append_eq_append_drop,
    List.drop_eq_nil_of_le hpa, List.nil_append, ← List.map_drop, ← List.map_take]

lemma mk_cons_ne_empty (c : Char) (m : List Char) : String.mk (c :: m) ≠ "" := by
  intro h
  exact List.cons_ne_nil c m (congrArg String.data h)

lemma take_digits (l : List Nat) (hl : ∀ x ∈ l, x < 10) (i k : Nat) :
    ∀ x ∈ (l.drop i).take k, x < 10 :=
  fun x hx => hl x (List.drop_subset i l (List.take_subset k _ hx))

lemma take_digits_ne_nil (l : List Nat) (i k : Nat) (hk : 0 < k)
    (hlen : i + k ≤ l.length) : (l.drop i).take k ≠ [] := by
  have : ((l.drop i).take k).length = k := by
    rw [List.length_take, List.length_drop]
    omega
  intro h
  rw [h] at this
  simp at this
  omega

lemma pyInt_slice_digitsStr (p : List Char) (l : List Nat)
    (hl : ∀ x ∈ l, x < 10) (a b : Nat) (hpa : p.length ≤ a) (hab : a < b)
    (hlen : (a - p.length) + (b - a) ≤ l.length) :
    pyInt (pySlice (digitsStr p l) a b) =
      some ((natVal ((l.drop (a - p.length)).take (b - a)) : Nat) : Int) := by
  rw [slice_digitsStr p l a b hpa]
  exact pyInt_digit_list _ (take_digits l hl _ _)
    (take_digits_ne_nil l _ _ (by omega) hlen)

/-- `_decode_food_square` on `W` followed by at least 12 digits. -/
lemma food_square_match (l : List Nat) (hl : ∀ x ∈ l, x < 10)
    (hlen : 12 ≤ l.length) :
    decode_food_square (digitsStr ['W'] l) =
      ⟨some ((natVal (l.take 7) : Nat) : Int),
       some ((natVal ((l.drop 7).take 5) : Nat) : Int), "food_square"⟩ := by
  have hpre : pyStartsWith (digitsStr ['W'] l) "W" = true := by
    simp +decide [pyStartsWith, data_digitsStr, listPre]
  have hlen' : 13 ≤ (digitsStr ['W'] l).data.length := by
    rw [length_digitsStr]; simp; omega
  have h1 := pyInt_slice_digitsStr ['W'] l hl 1 8 (by simp) (by omega) (by simp; omega)
  have h2 := pyInt_slice_digitsStr ['W'] l hl 8 13 (by simp) (by omega) (by simp; omega)
  unfold decode_food_square
  rw [if_pos ⟨hpre, hlen'⟩, h1, h2]
  norm_num

example : decode_food_square (digitsStr ['W'] [9,0,2,9,7,9,2,0,0,1,1,0]) =
    ⟨some 9029792, some 110, "food_square"⟩ := by
  have := food_square_match [9,0,2,9,7,9,2,0,0,1,1,0] (by decide) (by decide)
  simpa [natVal] using this

lemma dataC10 : "]C10".data = [']', 'C', '1', '0'] := rfl

lemma dataC12 : "]C12".data = [']', 'C', '1', '2'] := rfl

lemma data21 : "21".data = ['2', '1'] := rfl

lemma dataW : "W".data = ['W'] := rfl

lemma dataH : "H".data = ['H'] := rfl

/-- `_decode_smart_alternative` on `]C10` followed by at least 20 digits. -/
lemma smart_alternative_match (l : List Nat) (hl : ∀ x ∈ l, x < 10)
    (hlen : 20 ≤ l.length) :
    decode_smart_alternative (digitsStr [']', 'C', '1', '0'] l) =
      ⟨some ((natVal ((l.drop 6).take 9) : Nat) : Int),
       some ((natVal ((l.drop 15).take 5) : Nat) : Int), "smart_alternative"⟩ := by
  have hpre : pyStartsWith (digitsStr [']', 'C', '1', '0'] l) "]C10" = true := by
    simp +decide [pyStartsWith, data_digitsStr, dataC10, listPre]
  have hlen' : 24 ≤ (digitsStr [']', 'C', '1', '0'] l).data.length := by
    rw [length_digitsStr]; simp; omega
  have h1 := pyInt_slice_digitsStr [']', 'C', '1', '0'] l hl 10 19
    (by simp) (by omega) (by simp; omega)
  have h2 := pyInt_slice_digitsStr [']', 'C', '1', '0'] l hl 19 24
    (by simp) (by omega) (by simp; omega)
  unfold decode_smart_alternative
  rw [if_pos ⟨hpre, hlen'⟩, h1, h2]
  norm_num

/-- `_decode_reliance_smart` on `]C12` followed by at least 17 digits. -/
lemma reliance_smart_match (l : List Nat) (hl : ∀ x ∈ l, x < 10)
    (hlen : 17 ≤ l.length) :
    decode_reliance_smart (digitsStr [']', 'C', '1', '2'] l) =
      ⟨some ((natVal ((l.drop 3).take 9) : Nat) : Int),
       some ((natVal ((l.drop 12).take 5) : Nat) : Int), "reliance_smart"⟩ := by
  have hpre : pyStartsWith (digitsStr [']', 'C', '1', '2'] l) "]C12" = true := by
    simp +decide [pyStartsWith, data_digitsStr, dataC12, listPre]
  have hlen' : 21 ≤ (digitsStr [']', 'C', '1', '2'] l).data.length := by
    rw [length_digitsStr]; simp; omega
  have h1 := pyInt_slice_digitsStr [']', 'C', '1', '2'] l hl 7 16
    (by simp) (by omega) (by simp; omega)
  have h2 := pyInt_slice_digitsStr [']', 'C', '1', '2'] l hl 16 21
    (by simp) (by omega) (by simp; omega)
  unfold decode_reliance_smart
  rw [if_pos ⟨hpre, hlen'⟩, h1, h2]
  norm_num

/-- `_decode_reliance_fresh` on `21` followed by at least 19 digits. -/
lemma reliance_fresh_match (l : List Nat) (hl : ∀ x ∈ l, x < 10)
    (hlen : 19 ≤ l.length) :
    decode_reliance_fresh (digitsStr ['2', '1'] l) =
      ⟨some ((natVal ((l.drop 5).take 9) : Nat) : Int),
       some ((natVal ((l.drop 14).take 5) : Nat) : Int), "reliance_fresh"⟩ := by
  have hpre : pyStartsWith (digitsStr ['2', '1'] l) "21" = true := by
    simp +decide [pyStartsWith, data_digitsStr, data21, listPre]
  have hlen' : 21 ≤ (digitsStr ['2', '1'] l).data.length := by
    rw [length_digitsStr]; simp; omega
  have h1 := pyInt_slice_digitsStr ['2', '1'] l hl 7 16
    (by simp) (by omega) (by simp; omega)
  have h2 := pyInt_slice_digitsStr ['2', '1'] l hl 16 21
    (by simp) (by omega) (by simp; omega)
  unfold decode_reliance_fresh
  rw [if_pos ⟨hpre, hlen'⟩, h1, h2]
  norm_num

/-- `_decode_star_bazar` on `21` followed by at least 15 digits. -/
lemma star_bazar_match (l : List Nat) (hl : ∀ x ∈ l, x < 10)
    (hlen : 15 ≤ l.length) :
    decode_star_bazar (digitsStr ['2', '1'] l) =
      ⟨some ((natVal (l.take 4) : Nat) : Int),
       some ((natVal ((l.drop 10).take 5) : Nat) : Int), "star_bazar"⟩ := by
  have hpre : pyStartsWith (digitsStr ['2', '1'] l) "21" = true := by
    simp +decide [pyStartsWith, data_digitsStr, data21, listPre]
  have hlen' : 17 ≤ (digitsStr ['2', '1'] l).data.length := by
    rw [length_digitsStr]; simp; omega
  have h1 := pyInt_slice_digitsStr ['2', '1'] l hl 2 6
    (by simp) (by omega) (by simp; omega)
  have h2 := pyInt_slice_digitsStr ['2', '1'] l hl 12 17
    (by simp) (by omega) (by simp; omega)
  unfold decode_star_bazar
  rw [if_pos ⟨hpre, hlen'⟩, h1, h2]
  norm_num

/-- `_decode_rapsap` on `W` followed by exactly 11 digits. -/
lemma rapsap_match (l : List Nat) (hl : ∀ x ∈ l, x < 10)
    (hlen : l.length = 11) :
    decode_rapsap (digitsStr ['W'] l) =
      ⟨some ((natVal ((l.drop 1).take 5) : Nat) : Int),
       some ((natVal ((l.drop 6).take 5) : Nat) : Int), "rapsap"⟩ := by
  have hpre : pyStartsWith (digitsStr ['W'] l) "W" = true := by
    simp +decide [pyStartsWith, data_digitsStr, dataW, listPre]
  have hlen' : (digitsStr ['W'] l).data.length = 12 := by
    rw [length_digitsStr]; simp; omega
  have h1 := pyInt_slice_digitsStr ['W'] l hl 2 7
    (by simp) (by omega) (by simp; omega)
  have h2 := pyInt_slice_digitsStr ['W'] l hl 7 12
    (by simp) (by omega) (by simp; omega)
  unfold decode_rapsap
  rw [if_pos ⟨hpre, hlen'⟩, h1, h2]
  norm_num

/-- `_decode_mrdpl` on `H` followed by at least 11 digits. -/
lemma mrdpl_match (l : List Nat) (hl : ∀ x ∈ l, x < 10)
    (hlen : 11 ≤ l.length) :
    decode_mrdpl (digitsStr ['H'] l) =
      ⟨some ((natVal (l.take 5) : Nat) : Int),
       some ((natVal ((l.drop 5).take 6) : Nat) : Int), "mrdpl"⟩ := by
  have hpre : pyStartsWith (digitsStr ['H'] l) "H" = true := by
    simp +decide [pyStartsWith, data_digitsStr, dataH, listPre]
  have hlen' : 12 ≤ (digitsStr ['H'] l).data.length := by
    rw [length_digitsStr]; simp; omega
  have h1 := pyInt_slice_digitsStr ['H'] l hl 1 6
    (by simp) (by omega) (by simp; omega)
  have h2 := pyInt_slice_digitsStr ['H'] l hl 6 12
    (by simp) (by omega) (by simp; omega)
  unfold decode_mrdpl
  rw [if_pos ⟨hpre, hlen'⟩, h1, h2]
  norm_num

lemma smart_alternative_noMatch (b : String)
    (h : pyStartsWith b "]C10" = false ∨ ¬24 ≤ b.data.length) :
    decode_smart_alternative b = noMatch := by
  unfold decode_smart_alternative
  rw [if_neg]
  rintro ⟨hp, hle⟩
  rcases h with h | h
  · rw [h] at hp; exact Bool.false_ne_true hp
  · exact h hle

lemma reliance_smart_noMatch (b : String)
    (h : pyStartsWith b "]C12" = false ∨ ¬21 ≤ b.data.length) :
    decode_reliance_smart b = noMatch := by
  unfold decode_reliance_smart
  rw [if_neg]
  rintro ⟨hp, hle⟩
  rcases h with h | h
  · rw [h] at hp; exact Bool.false_ne_true hp
  · exact h hle

lemma reliance_fresh_noMatch (b : String)
    (h : pyStartsWith b "21" = false ∨ ¬21 ≤ b.data.length) :
    decode_reliance_fresh b = noMatch := by
  unfold decode_reliance_fresh
  rw [if_neg]
  rintro ⟨hp, hle⟩
  rcases h with h | h
  · rw [h] at hp; exact Bool.false_ne_true hp
  · exact h hle

lemma star_bazar_noMatch (b : String)
    (h : pyStartsWith b "21" = false ∨ ¬17 ≤ b.data.length) :
    decode_star_bazar b = noMatch := by
  unfold decode_star_bazar
  rw [if_neg]
  rintro ⟨hp, hle⟩
  rcases h with h | h
  · rw [h] at hp; exact Bool.false_ne_true hp
  · exact h hle

lemma food_square_noMatch (b : String)
    (h : pyStartsWith b "W" = false ∨ ¬13 ≤ b.data.length) :
    decode_food_square b = noMatch := by
  unfold decode_food_square
  rw [if_neg]
  rintro ⟨hp, hle⟩
  rcases h with h | h
  · rw [h] at hp; exact Bool.false_ne_true hp
  · exact h hle

lemma rapsap_noMatch (b : String)
    (h : pyStartsWith b "W" = false ∨ ¬b.data.length = 12) :
    decode_rapsap b = noMatch := by
  unfold decode_rapsap
  rw [if_neg]
  rintro ⟨hp, hle⟩
  rcases h with h | h
  · rw [h] at hp; exact Bool.false_ne_true hp
  · exact h hle

lemma decode_payload_smart_alternative (l : List Nat) (hl : ∀ x ∈ l, x < 10)
    (hlen : 20 ≤ l.length) :
    decode (digitsStr [']', 'C', '1', '0'] l) =
      ⟨some ((natVal ((l.drop 6).take 9) : Nat) : Int),
       some ((natVal ((l.drop 15).take 5) : Nat) : Int), "smart_alternative"⟩ := by
  have hne : ¬digitsStr [']', 'C', '1', '0'] l = "" := mk_cons_ne_empty ']' _
  have h1 := smart_alternative_match l hl hlen
  unfold decode
  rw [if_neg hne]
  simp [h1]

lemma decode_payload_reliance_smart (l : List Nat) (hl : ∀ x ∈ l, x < 10)
    (hlen : 17 ≤ l.length) :
    decode (digitsStr [']', 'C', '1', '2'] l) =
      ⟨some ((natVal ((l.drop 3).take 9) : Nat) : Int),
       some ((natVal ((l.drop 12).take 5) : Nat) : Int), "reliance_smart"⟩ := by
  have hne : ¬digitsStr [']', 'C', '1', '2'] l = "" := mk_cons_ne_empty ']' _
  have h1 : decode_smart_alternative (digitsStr [']', 'C', '1', '2'] l) = noMatch :=
    smart_alternative_noMatch _ (Or.inl (by
      simp +decide [pyStartsWith, data_digitsStr, dataC10, listPre]))
  have h2 := reliance_smart_match l hl hlen
  unfold decode
  rw [if_neg hne]
  simp [h1, h2, noMatch]

lemma decode_payload_reliance_fresh (l : List Nat) (hl : ∀ x ∈ l, x < 10)
    (hlen : 19 ≤ l.length) :
    decode (digitsStr ['2', '1'] l) =
      ⟨some ((natVal ((l.drop 5).take 9) : Nat) : Int),
       some ((natVal ((l.drop 14).take 5) : Nat) : Int), "reliance_fresh"⟩ := by
  have hne : ¬digitsStr ['2', '1'] l = "" := mk_cons_ne_empty '2' _
  have h1 : decode_smart_alternative (digitsStr ['2', '1'] l) = noMatch :=
    smart_alternative_noMatch _ (Or.inl (by
      simp +decide [pyStartsWith, data_digitsStr, dataC10, listPre]))
  have h2 : decode_reliance_smart (digitsStr ['2', '1'] l) = noMatch :=
    reliance_smart_noMatch _ (Or.inl (by
      simp +decide [pyStartsWith, data_digitsStr, dataC12, listPre]))
  have h3 := reliance_fresh_match l hl hlen
  unfold decode
  rw [if_neg hne]
  simp [h1, h2, h3, noMatch]

lemma decode_payload_star_bazar (l : List Nat) (hl : ∀ x ∈ l, x < 10)
    (hlen : 15 ≤ l.length) (hup : l.length ≤ 18) :
    decode (digitsStr ['2', '1'] l) =
      ⟨some ((natVal (l.take 4) : Nat) : Int),
       some ((natVal ((l.drop 10).take 5) : Nat) : Int), "star_bazar"⟩ := by
  have hne : ¬digitsStr ['2', '1'] l = "" := mk_cons_ne_empty '2' _
  have h1 : decode_smart_alternative (digitsStr ['2', '1'] l) = noMatch :=
    smart_alternative_noMatch _ (Or.inl (by
      simp +decide [pyStartsWith, data_digitsStr, dataC10, listPre]))
  have h2 : decode_reliance_smart (digitsStr ['2', '1'] l) = noMatch :=
    reliance_smart_noMatch _ (Or.inl (by
      simp +decide [pyStartsWith, data_digitsStr, dataC12, listPre]))
  have h3 : decode_reliance_fresh (digitsStr ['2', '1'] l) = noMatch :=
    reliance_fresh_noMatch _ (Or.inr (by rw [length_digitsStr]; simp; omega))
  have h4 := star_bazar_match l hl hlen
  unfold decode
  rw [if_neg hne]
  simp [h1, h2, h3, h4, noMatch]

lemma decode_payload_food_square (l : List Nat) (hl : ∀ x ∈ l, x < 10)
    (hlen : 12 ≤ l.length) :
    decode (digitsStr ['W'] l) =
      ⟨some ((natVal (l.take 7) : Nat) : Int),
       some ((natVal ((l.drop 7).take 5) : Nat) : Int), "food_square"⟩ := by
  have hne : ¬digitsStr ['W'] l = "" := mk_cons_ne_empty 'W' _
  have h1 : decode_smart_alternative (digitsStr ['W'] l) = noMatch :=
    smart_alternative_noMatch _ (Or.inl (by
      simp +decide [pyStartsWith, data_digitsStr, dataC10, listPre]))
  have h2 : decode_reliance_smart (digitsStr ['W'] l) = noMatch :=
    reliance_smart_noMatch _ (Or.inl (by
      simp +decide [pyStartsWith, data_digitsStr, dataC12, listPre]))
  have h3 : decode_reliance_fresh (digitsStr ['W'] l) = noMatch :=
    reliance_fresh_noMatch _ (Or.inl (by
      simp +decide [pyStartsWith, data_digitsStr, data21, listPre]))
  have h4 : decode_star_bazar (digitsStr ['W'] l) = noMatch :=
    star_bazar_noMatch _ (Or.inl (by
      simp +decide [pyStartsWith, data_digitsStr, data21, listPre]))
  have h5 := food_square_match l hl hlen
  unfold decode
  rw [if_neg hne]
  simp [h1, h2, h3, h4, h5, noMatch]

lemma decode_payload_rapsap (l : List Nat) (hl : ∀ x ∈ l, x < 10)
    (hlen : l.length = 11) :
    decode (digitsStr ['W'] l) =
      ⟨some ((natVal ((l.drop 1).take 5) : Nat) : Int),
       some ((natVal ((l.drop 6).take 5) : Nat) : Int), "rapsap"⟩ := by
  have hne : ¬digitsStr ['W'] l = "" := mk_cons_ne_empty 'W' _
  have h1 : decode_smart_alternative (digitsStr ['W'] l) = noMatch :=
    smart_alternative_noMatch _ (Or.inl (by
      simp +decide [pyStartsWith, data_digitsStr, dataC10, listPre]))
  have h2 : decode_reliance_smart (digitsStr ['W'] l) = noMatch :=
    reliance_smart_noMatch _ (Or.inl (by
      simp +decide [pyStartsWith, data_digitsStr, dataC12, listPre]))
  have h3 : decode_reliance_fresh (digitsStr ['W'] l) = noMatch :=
    reliance_fresh_noMatch _ (Or.inl (by
      simp +decide [pyStartsWith, data_digitsStr, data21, listPre]))
  have h4 : decode_star_bazar (digitsStr ['W'] l) = noMatch :=
    star_bazar_noMatch _ (Or.inl (by
      simp +decide [pyStartsWith, data_digitsStr, data21, listPre]))
  have h5 : decode_food_square (digitsStr ['W'] l) = noMatch :=
    food_square_noMatch _ (Or.inr (by rw [length_digitsStr]; simp; omega))
  have h6 := rapsap_match l hl hlen
  unfold decode
  rw [if_neg hne]
  simp [h1, h2, h3, h4, h5, h6, noMatch]

lemma decode_payload_mrdpl (l : List Nat) (hl : ∀ x ∈ l, x < 10)
    (hlen : 11 ≤ l.length) :
    decode (digitsStr ['H'] l) =
      ⟨some ((natVal (l.take 5) : Nat) : Int),
       some ((natVal ((l.drop 5).take 6) : Nat) : Int), "mrdpl"⟩ := by
  have hne : ¬digitsStr ['H'] l = "" := mk_cons_ne_empty 'H' _
  have h1 : decode_smart_alternative (digitsStr ['H'] l) = noMatch :=
    smart_alternative_noMatch _ (Or.inl (by
      simp +decide [pyStartsWith, data_digitsStr, dataC10, listPre]))
  have h2 : decode_reliance_smart (digitsStr ['H'] l) = noMatch :=
    reliance_smart_noMatch _ (Or.inl (by
      simp +decide [pyStartsWith, data_digitsStr, dataC12, listPre]))
  have h3 : decode_reliance_fresh (digitsStr ['H'] l) = noMatch :=
    reliance_fresh_noMatch _ (Or.inl (by
      simp +decide [pyStartsWith, data_digitsStr, data21, listPre]))
  have h4 : decode_star_bazar (digitsStr ['H'] l) = noMatch :=
    star_bazar_noMatch _ (Or.inl (by
      simp +decide [pyStartsWith, data_digitsStr, data21, listPre]))
  have h5 : decode_food_square (digitsStr ['H'] l) = noMatch :=
    food_square_noMatch _ (Or.inl (by
      simp +decide [pyStartsWith, data_digitsStr, dataW, listPre]))
  have h6 : decode_rapsap (digitsStr ['H'] l) = noMatch :=
    rapsap_noMatch _ (Or.inl (by
      simp +decide [pyStartsWith, data_digitsStr, dataW, listPre]))
  have h7 := mrdpl_match l hl hlen
  unfold decode
  rw [if_neg hne]
  simp [h1, h2, h3, h4, h5, h6, h7, noMatch]
example : decode "" = ⟨none, none, "unknown"⟩ := by decide
example : decode "   " = ⟨none, none, "unknown"⟩ := by decide
example : decode " +1_234 " = ⟨some 1234, none, "unknown"⟩ := by decide
example : decode "]C12600022496XX" = ⟨none, none, "unknown"⟩ := by decide
example : decode "W01930101000" = ⟨some 19301, some 1000, "rapsap"⟩ := by decide
example : decode "H10003000260" = ⟨some 10003, some 260, "mrdpl"⟩ := by decide
example : decode "2110000600647840002021" = ⟨some 600647840, some 202, "reliance_fresh"⟩ := by decide
example : decode "21452008000000100123" = ⟨some 4520, some 100, "star_bazar"⟩ := by decide

/-- C1: For every raw barcode built from one of the 7 known vendor prefixes
with a correctly-sized all-digit payload, `decode` returns exactly the
`(articleCode, weight, formatTag)` of that format's positional layout (the
weight field carrying the sliced gram count, whose kilogram value is the
gram field divided by 1000); in particular `decode "W902979200110"` yields
article code 9029792, 0.110 kg, and tag `food_square`. -/
theorem claim_C1 :
    (∀ l : List Nat, (∀ x ∈ l, x < 10) → 20 ≤ l.length →
      decode (digitsStr [']', 'C', '1', '0'] l) =
        ⟨some ((natVal ((l.drop 6).take 9) : Nat) : Int),
         some ((natVal ((l.drop 15).take 5) : Nat) : Int), "smart_alternative"⟩) ∧
    (∀ l : List Nat, (∀ x ∈ l, x < 10) → 17 ≤ l.length →
      decode (digitsStr [']', 'C', '1', '2'] l) =
        ⟨some ((natVal ((l.drop 3).take 9) : Nat) : Int),
         some ((natVal ((l.drop 12).take 5) : Nat) : Int), "reliance_smart"⟩) ∧
    (∀ l : List Nat, (∀ x ∈ l, x < 10) → 19 ≤ l.length →
      decode (digitsStr ['2', '1'] l) =
        ⟨some ((natVal ((l.drop 5).take 9) : Nat) : Int),
         some ((natVal ((l.drop 14).take 5) : Nat) : Int), "reliance_fresh"⟩) ∧
    (∀ l : List Nat, (∀ x ∈ l, x < 10) → 15 ≤ l.length → l.length ≤ 18 →
      decode (digitsStr ['2', '1'] l) =
        ⟨some ((natVal (l.take 4) : Nat) : Int),
         some ((natVal ((l.drop 10).take 5) : Nat) : Int), "star_bazar"⟩) ∧
    (∀ l : List Nat, (∀ x ∈ l, x < 10) → 12 ≤ l.length →
      decode (digitsStr ['W'] l) =
        ⟨some ((natVal (l.take 7) : Nat) : Int),
         some ((natVal ((l.drop 7).take 5) : Nat) : Int), "food_square"⟩) ∧
    (∀ l : List Nat, (∀ x ∈ l, x < 10) → l.length = 11 →
      decode (digitsStr ['W'] l) =
        ⟨some ((natVal ((l.drop 1).take 5) : Nat) : Int),
         some ((natVal ((l.drop 6).take 5) : Nat) : Int), "rapsap"⟩) ∧
    (∀ l : List Nat, (∀ x ∈ l, x < 10) → 11 ≤ l.length →
      decode (digitsStr ['H'] l) =
        ⟨some ((natVal (l.take 5) : Nat) : Int),
         some ((natVal ((l.drop 5).take 6) : Nat) : Int), "mrdpl"⟩) ∧
    (decode "W902979200110" = ⟨some 9029792, some 110, "food_square"⟩ ∧
      weightKgQ (decode "W902979200110") = some ((110 : ℚ) / 1000)) := by
  refine ⟨decode_payload_smart_alternative, decode_payload_reliance_smart,
    decode_payload_reliance_fresh, decode_payload_star_bazar,
    decode_payload_food_square, decode_payload_rapsap, decode_payload_mrdpl,
    by decide, ?_⟩
  have h : decode "W902979200110" = ⟨some 9029792, some 110, "food_square"⟩ := by decide
  rw [h]
  simp [weightKgQ]

/-- Witness for C1: the mrdpl clause applied to the payload of the source's
own docstring example `H10003000260`. -/
theorem claim_C1_wit :
    decode (digitsStr ['H'] [1, 0, 0, 0, 3, 0, 0, 0, 2, 6, 0]) =
      ⟨some 10003, some 260, "mrdpl"⟩ := by
  have h := claim_C1.2.2.2.2.2.2.1 [1, 0, 0, 0, 3, 0, 0, 0, 2, 6, 0]
    (by decide) (by decide)
  exact h.trans (by decide)

/-! ### What a matched decoder guarantees -/

lemma smart_alternative_shape (b : String) :
    decode_smart_alternative b = noMatch ∨
      (∃ a g : Int, decode_smart_alternative b = ⟨some a, some g, "smart_alternative"⟩ ∧
        pyStartsWith b "]C10" = true ∧ 24 ≤ b.data.length) := by
  unfold decode_smart_alternative
  split_ifs with hc
  · cases h1 : pyInt (pySlice b 10 19) with
    | none => exact Or.inl rfl
    | some a =>
      cases h2 : pyInt (pySlice b 19 24) with
      | none => exact Or.inl rfl
      | some g => exact Or.inr ⟨a, g, rfl, hc.1, hc.2⟩
  · exact Or.inl rfl

lemma reliance_smart_shape (b : String) :
    decode_reliance_smart b = noMatch ∨
      (∃ a g : Int, decode_reliance_smart b = ⟨some a, some g, "reliance_smart"⟩ ∧
        pyStartsWith b "]C12" = true ∧ 21 ≤ b.data.length) := by
  unfold decode_reliance_smart
  split_ifs with hc
  · cases h1 : pyInt (pySlice b 7 16) with
    | none => exact Or.inl rfl
    | some a =>
      cases h2 : pyInt (pySlice b 16 21) with
      | none => exact Or.inl rfl
      | some g => exact Or.inr ⟨a, g, rfl, hc.1, hc.2⟩
  · exact Or.inl rfl

lemma reliance_fresh_shape (b : String) :
    decode_reliance_fresh b = noMatch ∨
      (∃ a g : Int, decode_reliance_fresh b = ⟨some a, some g, "reliance_fresh"⟩ ∧
        pyStartsWith b "21" = true ∧ 21 ≤ b.data.length) := by
  unfold decode_reliance_fresh
  split_ifs with hc
  · cases h1 : pyInt (pySlice b 7 16) with
    | none => exact Or.inl rfl
    | some a =>
      cases h2 : pyInt (pySlice b 16 21) with
      | none => exact Or.inl rfl
      | some g => exact Or.inr ⟨a, g, rfl, hc.1, hc.2⟩
  · exact Or.inl rfl

lemma star_bazar_shape (b : String) :
    decode_star_bazar b = noMatch ∨
      (∃ a g : Int, decode_star_bazar b = ⟨some a, some g, "star_bazar"⟩ ∧
        pyStartsWith b "21" = true ∧ 17 ≤ b.data.length) := by
  unfold decode_star_bazar
  split_ifs with hc
  · cases h1 : pyInt (pySlice b 2 6) with
    | none => exact Or.inl rfl
    | some a =>
      cases h2 : pyInt (pySlice b 12 17) with
      | none => exact Or.inl rfl
      | some g => exact Or.inr ⟨a, g, rfl, hc.1, hc.2⟩
  · exact Or.inl rfl

lemma food_square_shape (b : String) :
    decode_food_square b = noMatch ∨
      (∃ a g : Int, decode_food_square b = ⟨some a, some g, "food_square"⟩ ∧
        pyStartsWith b "W" = true ∧ 13 ≤ b.data.length) := by
  unfold decode_food_square
  split_ifs with hc
  · cases h1 : pyInt (pySlice b 1 8) with
    | none => exact Or.inl rfl
    | some a =>
      cases h2 : pyInt (pySlice b 8 13) with
      | none => exact Or.inl rfl
      | some g => exact Or.inr ⟨a, g, rfl, hc.1, hc.2⟩
  · exact Or.inl rfl

lemma rapsap_shape (b : String) :
    decode_rapsap b = noMatch ∨
      (∃ a g : Int, decode_rapsap b = ⟨some a, some g, "rapsap"⟩ ∧
        pyStartsWith b "W" = true ∧ b.data.length = 12) := by
  unfold decode_rapsap
  split_ifs with hc
  · cases h1 : pyInt (pySlice b 2 7) with
    | none => exact Or.inl rfl
    | some a =>
      cases h2 : pyInt (pySlice b 7 12) with
      | none => exact Or.inl rfl
      | some g => exact Or.inr ⟨a, g, rfl, hc.1, hc.2⟩
  · exact Or.inl rfl

lemma mrdpl_shape (b : String) :
    decode_mrdpl b = noMatch ∨
      (∃ a g : Int, decode_mrdpl b = ⟨some a, some g, "mrdpl"⟩ ∧
        pyStartsWith b "H" = true ∧ 12 ≤ b.data.length) := by
  unfold decode_mrdpl
  split_ifs with hc
  · cases h1 : pyInt (pySlice b 1 6) with
    | none => exact Or.inl rfl
    | some a =>
      cases h2 : pyInt (pySlice b 6 12) with
      | none => exact Or.inl rfl
      | some g => exact Or.inr ⟨a, g, rfl, hc.1, hc.2⟩
  · exact Or.inl rfl

/-- Walking `decode`'s decoder chain: when no decoder matched the result is
the integer-fallback shape, a `reliance_smart` tag forces the `]C12` guard,
and a `food_square` tag forces the length-≥-13 guard. -/
lemma decode_fallback_or_decoder (b : String) :
    ((decode b).article_code = none → decode b = ⟨none, none, "unknown"⟩) ∧
    ((decode b).store_type = "reliance_smart" → pyStartsWith b "]C12" = true) ∧
    ((decode b).store_type = "food_square" → 13 ≤ b.data.length) := by
  by_cases hb : b = ""
  · subst hb
    exact ⟨fun _ => rfl, fun h => absurd h (by decide), fun h => absurd h (by decide)⟩
  · unfold decode
    rw [if_neg hb]
    rcases smart_alternative_shape b with h1 | ⟨a1, g1, h1, -, -⟩
    · rw [h1]
      simp only [noMatch, Option.isSome_none, Bool.false_eq_true, if_false]
      rcases reliance_smart_shape b with h2 | ⟨a2, g2, h2, hp2, -⟩
      · rw [h2]
        simp only [noMatch, Option.isSome_none, Bool.false_eq_true, if_false]
        rcases reliance_fresh_shape b with h3 | ⟨a3, g3, h3, -, -⟩
        · rw [h3]
          simp only [noMatch, Option.isSome_none, Bool.false_eq_true, if_false]
          rcases star_bazar_shape b with h4 | ⟨a4, g4, h4, -, -⟩
          · rw [h4]
            simp only [noMatch, Option.isSome_none, Bool.false_eq_true, if_false]
            rcases food_square_shape b with h5 | ⟨a5, g5, h5, -, hl5⟩
            · rw [h5]
              simp only [noMatch, Option.isSome_none, Bool.false_eq_true, if_false]
              rcases rapsap_shape b with h6 | ⟨a6, g6, h6, -, -⟩
              · rw [h6]
                simp only [noMatch, Option.isSome_none, Bool.false_eq_true, if_false]
                rcases mrdpl_shape b with h7 | ⟨a7, g7, h7, -, -⟩
                · rw [h7]
                  simp only [noMatch, Option.isSome_none, Bool.false_eq_true, if_false]
                  cases hpy : pyInt b <;> simp
                · rw [h7]; simp
              · rw [h6]; simp
            · rw [h5]; simp; exact hl5
          · rw [h4]; simp
        · rw [h3]; simp
      · rw [h2]; simp [hp2]
    · rw [h1]; simp

/-- Two prefixes of equal length cannot both match when they differ. -/
lemma pre_conflict (b : String) (h1 : pyStartsWith b "]C10" = true)
    (h2 : pyStartsWith b "]C12" = true) : False := by
  obtain ⟨d⟩ := b
  unfold pyStartsWith at h1 h2
  rw [dataC10] at h1
  rw [dataC12] at h2
  rcases d with - | ⟨c1, d⟩
  · simp [listPre] at h1
  rcases d with - | ⟨c2, d⟩
  · simp [listPre] at h1
  rcases d with - | ⟨c3, d⟩
  · simp [listPre] at h1
  rcases d with - | ⟨c4, d⟩
  · simp [listPre] at h1
  simp only [listPre, Bool.and_eq_true, beq_iff_eq] at h1 h2
  exact absurd (h1.2.2.2.1.trans h2.2.2.2.1.symm) (by decide)

/-- C7: no `]C10`-prefixed input ever decodes with tag `reliance_smart`, and
no 12-character `W`-prefixed input ever decodes with tag `food_square`. -/
theorem claim_C7 :
    (∀ b : String, pyStartsWith b "]C10" = true →
      ¬(decode b).store_type = "reliance_smart") ∧
    (∀ b : String, pyStartsWith b "W" = true → b.data.length = 12 →
      ¬(decode b).store_type = "food_square") := by
  constructor
  · intro b h10 htag
    exact pre_conflict b h10 ((decode_fallback_or_decoder b).2.1 htag)
  · intro b hw hlen htag
    have := (decode_fallback_or_decoder b).2.2 htag
    omega

/-- Witness for C7 at a long `]C10` input and the 12-character rapsap
docstring example. -/
theorem claim_C7_wit :
    ¬(decode "]C10600022536025010000000000").store_type = "reliance_smart" ∧
      ¬(decode "W01930101000").store_type = "food_square" :=
  ⟨claim_C7.1 _ (by decide), claim_C7.2 _ (by decide) (by decide)⟩

/-- C9: `decode` is total — every string yields a result triple, and an
absent article code comes with an absent weight and the `unknown` tag
(the fallback shape; no error escapes). -/
theorem claim_C9 : ∀ b : String, (∃ r : DecodeResult, decode b = r) ∧
    ((decode b).article_code = none → decode b = ⟨none, none, "unknown"⟩) :=
  fun b => ⟨⟨decode b, rfl⟩, (decode_fallback_or_decoder b).1⟩

/-- Witness for C9 at a short non-numeric string. -/
theorem claim_C9_wit :
    (∃ r : DecodeResult, decode "]C1" = r) ∧
      decode "]C1" = ⟨none, none, "unknown"⟩ :=
  ⟨(claim_C9 "]C1").1, (claim_C9 "]C1").2 (by decide)⟩

/-- C10: the bare-integer fallback accepts all of Python's int-literal
syntax: when no vendor decoder matches a nonempty input and `int(...)`
parses it — surrounding whitespace, a sign, and underscore separators
included — `decode` returns that integer with no weight and tag
`unknown`. -/
theorem claim_C10 : ∀ (b : String) (n : Int), ¬b = "" →
    (decode_smart_alternative b).article_code = none →
    (decode_reliance_smart b).article_code = none →
    (decode_reliance_fresh b).article_code = none →
    (decode_star_bazar b).article_code = none →
    (decode_food_square b).article_code = none →
    (decode_rapsap b).article_code = none →
    (decode_mrdpl b).article_code = none →
    pyInt b = some n →
    decode b = ⟨some n, none, "unknown"⟩ := by
  intro b n hb h1 h2 h3 h4 h5 h6 h7 hpy
  unfold decode
  rw [if_neg hb]
  simp [h1, h2, h3, h4, h5, h6, h7, hpy]

/-- Witness for C10 at `" +1_234 "`. -/
theorem claim_C10_wit : decode " +1_234 " = ⟨some 1234, none, "unknown"⟩ :=
  claim_C10 " +1_234 " 1234 (by decide) (by decide) (by decide) (by decide)
    (by decide) (by decide) (by decide) (by decide) (by decide)

/-! ### Scan-level lemmas -/

lemma scan_guard_false (b : String) (a : Int)
    (hd : (decode (pyStrip b)).article_code = some a) :
    ¬(b = "" ∨ pyStrip b = "") := by
  rintro (rfl | h)
  · rw [show pyStrip "" = "" from rfl] at hd
    rw [show (decode "").article_code = none from rfl] at hd
    cases hd
  · rw [h] at hd
    rw [show (decode "").article_code = none from rfl] at hd
    cases hd

lemma store_type_to_promoter_ne_empty (t p : String)
    (h : store_type_to_promoter t = some p) : ¬p = "" := by
  unfold store_type_to_promoter at h
  split_ifs at h <;> simp_all <;> (subst h; decide)

/-- C3 (amended): the scan raises the Undecodable error exactly when the
stripped input is nonempty and `decode` yields no article code or article
code 0 (Python's `if not article_code` also rejects a decoded 0); and
`decode` maps empty and whitespace-only input to the not-decodable
triple. -/
theorem claim_C3 :
    (∀ (o : ScanOracle) (b : String) (s : Option String),
      (scan o b s).1 = .error .undecodable ↔
        (¬pyStrip b = "" ∧
          ((decode (pyStrip b)).article_code = none ∨
            (decode (pyStrip b)).article_code = some 0))) ∧
    decode "" = ⟨none, none, "unknown"⟩ ∧
    decode "   " = ⟨none, none, "unknown"⟩ := by
  refine ⟨?_, by decide, by decide⟩
  intro o b s
  unfold scan
  by_cases hg : b = "" ∨ pyStrip b = ""
  · rw [if_pos hg]
    constructor
    · intro h; simp at h
    · rintro ⟨hne, -⟩
      rcases hg with rfl | hg
      · exact (hne rfl).elim
      · exact (hne hg).elim
  · rw [if_neg hg]
    have hne : ¬pyStrip b = "" := fun h => hg (Or.inr h)
    dsimp only
    cases hd : (decode (pyStrip b)).article_code with
    | none => exact ⟨fun _ => ⟨hne, Or.inl rfl⟩, fun _ => rfl⟩
    | some a =>
      dsimp only
      by_cases ha : a = 0
      · subst ha
        rw [if_pos rfl]
        exact ⟨fun _ => ⟨hne, Or.inr rfl⟩, fun _ => rfl⟩
      · rw [if_neg ha]
        have hrhs : ¬(¬pyStrip b = "" ∧
            ((some a : Option Int) = none ∨ (some a : Option Int) = some 0)) := by
          rintro ⟨-, h | h⟩
          · cases h
          · exact ha (Option.some.inj h)
        cases hp : (resolvePromoter o s (decode (pyStrip b)).store_type).1 with
        | none => exact ⟨fun h => absurd h (by simp), fun h => absurd h hrhs⟩
        | some pn =>
          cases hpn : (pn == "") with
          | true =>
            simp only [hpn, if_true]
            exact ⟨fun h => absurd h (by simp), fun h => absurd h hrhs⟩
          | false =>
            simp only [hpn, Bool.false_eq_true, if_false]
            cases ha2 : (resolveArticle o a pn s (decode (pyStrip b)).store_type).1 with
            | none => exact ⟨fun h => absurd h (by simp), fun h => absurd h hrhs⟩
            | some pp => exact ⟨fun h => absurd h (by simp), fun h => absurd h hrhs⟩

/-- C3 counterexample: `"0"` is a bare integer, so the claim says the scan
passes the decode stage; the code raises the Undecodable error on it. -/
theorem claim_C3_cex :
    pyInt "0" = some 0 ∧ (decode "0").article_code = some 0 ∧
      (scan emptyOracle "0" (some "Store")).1 = .error .undecodable :=
  ⟨by decide, by decide, rfl⟩

/-- C6: the promoter stage queries the store directory first (first match
wins) whenever a truthy store name is given; whenever that query yields
nothing, the resolved promoter is the `store_type_to_promoter` entry for the
decoded format tag, and the scan raises PromoterUnresolved exactly when that
table has no entry for the tag. -/
theorem claim_C6 :
    (∀ (o : ScanOracle) (st t p : String), ¬st = "" →
      o.promoterByStore st = some p → ¬p = "" →
      (resolvePromoter o (some st) t).1 = some p) ∧
    (∀ (o : ScanOracle) (t : String),
      (resolvePromoter o none t).1 = store_type_to_promoter t) ∧
    (∀ (o : ScanOracle) (st t : String),
      (st = "" ∨ optStrTruthy (o.promoterByStore st) = false) →
      (resolvePromoter o (some st) t).1 = store_type_to_promoter t) ∧
    (∀ (o : ScanOracle) (b : String) (s : Option String) (a : Int),
      (decode (pyStrip b)).article_code = some a → ¬a = 0 →
      (resolvePromoter o s (decode (pyStrip b)).store_type).1 =
        store_type_to_promoter (decode (pyStrip b)).store_type →
      ((scan o b s).1 = .error .promoterUnresolved ↔
        store_type_to_promoter (decode (pyStrip b)).store_type = none)) := by
  refine ⟨?_, ?_, ?_, ?_⟩
  · intro o st t p hst hq hp
    simp [resolvePromoter, optStrTruthy, hst, hq, hp]
  · intro o t
    rfl
  · intro o st t h
    by_cases hst : st = ""
    · simp [resolvePromoter, hst, optStrTruthy]
    · rcases h with h | h
      · exact absurd h hst
      · simp [resolvePromoter, hst, h]
  · intro o b s a hd ha hres
    unfold scan
    rw [if_neg (scan_guard_false b a hd)]
    dsimp only
    rw [hd]
    dsimp only
    rw [if_neg ha, hres]
    cases htab : store_type_to_promoter (decode (pyStrip b)).store_type with
    | none => exact ⟨fun _ => rfl, fun _ => rfl⟩
    | some p =>
      have hp := store_type_to_promoter_ne_empty _ p htab
      have hp2 : (p == "") = false := by
        cases hpb : (p == "") with
        | true => exact absurd (by simpa using hpb) hp
        | false => rfl
      simp only [hp2, Bool.false_eq_true, if_false]
      cases ha2 : (resolveArticle o a p s (decode (pyStrip b)).store_type).1 with
      | none => exact ⟨fun h => absurd h (by simp), fun h => Option.noConfusion h⟩
      | some pp => exact ⟨fun h => absurd h (by simp), fun h => Option.noConfusion h⟩

/-- A directory with one promoter record, used by the C6 witness. -/
def promoterOracle : ScanOracle :=
  ⟨fun s => if s = "Bandra" then some "PromoX" else none,
   fun _ _ => none, fun _ _ => none, fun _ => none⟩

/-- Witness for C6: a store hit, the no-store fallback, the failed-lookup
fallback, and the PromoterUnresolved case for an unknown tag. -/
theorem claim_C6_wit :
    (resolvePromoter promoterOracle (some "Bandra") "food_square").1 =
      some "PromoX" ∧
    (resolvePromoter promoterOracle none "mrdpl").1 = some "Magson Barcode" ∧
    (resolvePromoter promoterOracle (some "Nowhere") "rapsap").1 =
      some "Rapsap" ∧
    (scan promoterOracle "777" none).1 = .error .promoterUnresolved := by
  refine ⟨claim_C6.1 promoterOracle "Bandra" "food_square" "PromoX"
      (by decide) (by decide) (by decide),
    (claim_C6.2.1 promoterOracle "mrdpl").trans (by decide),
    (claim_C6.2.2.1 promoterOracle "Nowhere" "rapsap"
      (Or.inr (by decide))).trans (by decide),
    (claim_C6.2.2.2 promoterOracle "777" none 777 (by decide) (by decide)
      rfl).mpr rfl⟩

lemma resolveArticle_fallback_hit (o : ScanOracle) (a : Int)
    (p : String) (s : Option String) (t bp prod : String)
    (h1 : o.articleByCodePromoter a p = none)
    (h2 : optStrTruthy s = true)
    (h3 : store_type_to_promoter t = some bp)
    (h4 : ¬bp = "") (h5 : ¬bp = p)
    (h6 : o.articleByCodePromoter a bp = some prod) :
    resolveArticle o a p s t = (some (prod, bp), 2) := by
  have e1 : (bp == "") = false := beq_eq_false_iff_ne.mpr h4
  have e2 : (bp == p) = false := beq_eq_false_iff_ne.mpr h5
  unfold resolveArticle
  rw [h1, h2]
  dsimp only
  rw [h3]
  dsimp only
  simp only [e1, e2, Bool.not_false, Bool.and_self, if_true]
  rw [h6]

/-- C4: when the exact `(articleCode, promoter)` lookup misses, a store name
was given, and the format-tag promoter from the fallback table differs from
the promoter already tried, the article lookup is retried with the
alternate; on a hit the scan succeeds and the alternate promoter is the one
the price stage uses (its pricelist candidates are selected from it).  When
the recomputed promoter equals the one already tried there is no retry: the
stage fails after the single lookup. -/
theorem claim_C4 :
    (∀ (o : ScanOracle) (b : String) (s : Option String) (a : Int)
        (p bp prod : String),
      (decode (pyStrip b)).article_code = some a → ¬a = 0 →
      (resolvePromoter o s (decode (pyStrip b)).store_type).1 = some p →
      ¬p = "" →
      o.articleByCodePromoter a p = none →
      optStrTruthy s = true →
      store_type_to_promoter (decode (pyStrip b)).store_type = some bp →
      ¬bp = "" → ¬bp = p →
      o.articleByCodePromoter a bp = some prod →
      ∃ resp : ScanResponse, (scan o b s).1 = .ok resp ∧
        resp.promoter = bp ∧ resp.product = prod ∧
        resp.pricelist = (resolvePrice o prod bp s).1.pricelist ∧
        resp.price = (resolvePrice o prod bp s).1.price ∧
        resp.gst = (resolvePrice o prod bp s).1.gst ∧
        resp.price_with_gst = (resolvePrice o prod bp s).1.price_with_gst) ∧
    (∀ (o : ScanOracle) (a : Int) (p : String) (s : Option String)
        (t bp : String),
      o.articleByCodePromoter a p = none →
      optStrTruthy s = true →
      store_type_to_promoter t = some bp → bp = p →
      resolveArticle o a p s t = (none, 1)) := by
  constructor
  · intro o b s a p bp prod hd ha hp hpne h1 h2 h3 h4 h5 h6
    have e1 : (p == "") = false := beq_eq_false_iff_ne.mpr hpne
    unfold scan
    rw [if_neg (scan_guard_false b a hd)]
    dsimp only
    rw [hd]
    dsimp only
    rw [if_neg ha, hp]
    dsimp only
    simp only [e1, Bool.false_eq_true, if_false]
    rw [resolveArticle_fallback_hit o a p s _ bp prod h1 h2 h3 h4 h5 h6]
    exact ⟨_, rfl, rfl, rfl, rfl, rfl, rfl, rfl⟩
  · intro o a p s t bp h1 h2 h3 hbp
    subst hbp
    unfold resolveArticle
    rw [h1, h2]
    dsimp only
    rw [h3]
    simp

/-- A directory where the store's promoter has no article record but the
barcode-format promoter does, used by the C4 witness. -/
def c4Oracle : ScanOracle :=
  ⟨fun _ => some "Wrong Promoter",
   fun a pr => if a = 9029792 ∧ pr = "Food Square Barcode"
               then some "Almonds" else none,
   fun _ _ => none, fun _ => none⟩

/-- Witness for C4: the `W902979200110` scan retries with the Food Square
fallback promoter and resolves price under it. -/
theorem claim_C4_wit :
    ∃ resp : ScanResponse,
      (scan c4Oracle "W902979200110" (some "Food Square - Bandra")).1 =
        .ok resp ∧
      resp.promoter = "Food Square Barcode" ∧ resp.product = "Almonds" ∧
      resp.pricelist =
        (resolvePrice c4Oracle "Almonds" "Food Square Barcode"
          (some "Food Square - Bandra")).1.pricelist ∧
      resp.price =
        (resolvePrice c4Oracle "Almonds" "Food Square Barcode"
          (some "Food Square - Bandra")).1.price ∧
      resp.gst =
        (resolvePrice c4Oracle "Almonds" "Food Square Barcode"
          (some "Food Square - Bandra")).1.gst ∧
      resp.price_with_gst =
        (resolvePrice c4Oracle "Almonds" "Food Square Barcode"
          (some "Food Square - Bandra")).1.price_with_gst :=
  claim_C4.1 c4Oracle "W902979200110" (some "Food Square - Bandra") 9029792
    "Wrong Promoter" "Food Square Barcode" "Almonds"
    (by decide) (by decide) (by decide) (by decide) (by decide) (by decide)
    (by decide) (by decide) (by decide) (by decide)

/-- C5: price resolution always yields a value.  On a match the outcome
carries the matched record's own pricelist and price, with
`price_with_gst = round(price + price * gst, 2)` exactly when `gst` is
non-null (absent otherwise); when nothing matches anywhere, every price
field is absent and the pricelist falls back to the label (the store name),
and a scan that has resolved its article still succeeds, its price fields
being this outcome. -/
theorem claim_C5 :
    (∀ (o : ScanOracle) (prod pn : String) (fb : Option String)
        (r : PriceRecord),
      (searchPrice o prod pn).1 = some r →
        (resolvePrice o prod pn fb).1 =
          ⟨some r.price, r.gst,
           (match r.gst with
            | some g => some (round2 (r.price + r.price * g))
            | none => none),
           some r.pricelist⟩) ∧
    (∀ (o : ScanOracle) (prod pn : String) (fb : Option String),
      (searchPrice o prod pn).1 = none →
        (resolvePrice o prod pn fb).1 = ⟨none, none, none, fb⟩) ∧
    (∀ (o : ScanOracle) (b : String) (s : Option String) (a : Int)
        (p : String) (pp : String × String),
      (decode (pyStrip b)).article_code = some a → ¬a = 0 →
      (resolvePromoter o s (decode (pyStrip b)).store_type).1 = some p →
      ¬p = "" →
      (resolveArticle o a p s (decode (pyStrip b)).store_type).1 = some pp →
      ∃ resp : ScanResponse, (scan o b s).1 = .ok resp ∧
        resp.price = (resolvePrice o pp.1 pp.2 s).1.price ∧
        resp.gst = (resolvePrice o pp.1 pp.2 s).1.gst ∧
        resp.price_with_gst = (resolvePrice o pp.1 pp.2 s).1.price_with_gst ∧
        resp.pricelist = (resolvePrice o pp.1 pp.2 s).1.pricelist) := by
  refine ⟨?_, ?_, ?_⟩
  · intro o prod pn fb r h
    unfold resolvePrice
    dsimp only
    rw [h]
  · intro o prod pn fb h
    unfold resolvePrice
    dsimp only
    rw [h]
  · intro o b s a p pp hd ha hp hpne har
    have e1 : (p == "") = false := beq_eq_false_iff_ne.mpr hpne
    unfold scan
    rw [if_neg (scan_guard_false b a hd)]
    dsimp only
    rw [hd]
    dsimp only
    rw [if_neg ha, hp]
    dsimp only
    simp only [e1, Bool.false_eq_true, if_false]
    rw [har]
    exact ⟨_, rfl, rfl, rfl, rfl, rfl⟩

/-- A directory with one article and one price record (no GST), used by the
C5 witness. -/
def c5Oracle : ScanOracle :=
  ⟨fun _ => none,
   fun a pr => if a = 10003 ∧ pr = "Magson Barcode" then some "Paneer" else none,
   fun prod pl => if prod = "Paneer" ∧ pl = "Magson"
                  then some ⟨"Magson", 100, none⟩ else none,
   fun _ => none⟩

/-- Witness for C5: a matched record (actual pricelist returned), the
no-record fallback label, and a full scan succeeding with those fields. -/
theorem claim_C5_wit :
    (resolvePrice c5Oracle "Paneer" "Magson Barcode" (some "St")).1 =
      ⟨some (100 : ℚ), none, none, some "Magson"⟩ ∧
    (resolvePrice emptyOracle "P" "X" (some "FB")).1 =
      ⟨none, none, none, some "FB"⟩ ∧
    (∃ resp : ScanResponse,
      (scan c5Oracle "H10003000260" none).1 = .ok resp ∧
      resp.price = (resolvePrice c5Oracle "Paneer" "Magson Barcode" none).1.price ∧
      resp.gst = (resolvePrice c5Oracle "Paneer" "Magson Barcode" none).1.gst ∧
      resp.price_with_gst =
        (resolvePrice c5Oracle "Paneer" "Magson Barcode" none).1.price_with_gst ∧
      resp.pricelist =
        (resolvePrice c5Oracle "Paneer" "Magson Barcode" none).1.pricelist) := by
  refine ⟨?_, claim_C5.2.1 emptyOracle "P" "X" (some "FB") rfl, ?_⟩
  · exact claim_C5.1 c5Oracle "Paneer" "Magson Barcode" (some "St")
      ⟨"Magson", 100, none⟩ rfl
  · exact claim_C5.2.2 c5Oracle "H10003000260" none 10003 "Magson Barcode"
      ("Paneer", "Magson Barcode") (by decide) (by decide) rfl (by decide) rfl

/-! ### Oracle call counts -/

lemma resolvePromoter_calls (o : ScanOracle) (s : Option String) (t : String) :
    (resolvePromoter o s t).2 ≤ 1 := by
  unfold resolvePromoter
  cases s <;> dsimp only <;> split_ifs <;> simp

lemma resolveArticle_calls (o : ScanOracle) (a : Int) (p : String)
    (s : Option String) (t : String) : (resolveArticle o a p s t).2 ≤ 2 := by
  unfold resolveArticle
  repeat' split
  all_goals simp

lemma searchPriceLoop_calls (o : ScanOracle) (prod : String) (L : List String) :
    (searchPriceLoop o prod L).2 ≤ L.length := by
  induction L with
  | nil => simp [searchPriceLoop]
  | cons pl rest ih =>
    unfold searchPriceLoop
    cases h : o.priceByProductPricelist prod pl with
    | some r => simp
    | none =>
      dsimp only
      simp only [List.length_cons]
      omega

lemma promoter_to_pricelist_len (p : String) :
    (promoter_to_pricelist p).length ≤ 2 := by
  unfold promoter_to_pricelist
  split_ifs <;> simp

lemma searchPrice_calls (o : ScanOracle) (prod pn : String) :
    (searchPrice o prod pn).2 ≤ 3 := by
  have h := searchPriceLoop_calls o prod (promoter_to_pricelist pn)
  have h2 := promoter_to_pricelist_len pn
  unfold searchPrice
  dsimp only
  split <;> omega

lemma resolvePrice_calls (o : ScanOracle) (prod pn : String)
    (fb : Option String) : (resolvePrice o prod pn fb).2 ≤ 3 := by
  have h := searchPrice_calls o prod pn
  unfold resolvePrice
  dsimp only
  split <;> omega

/-- C8 (amended): per invocation the scan performs at most 1 promoter
lookup, at most 2 article lookups, and at most 3 price lookups (up to two
candidate pricelists plus the any-pricelist fallback), hence at most 6
external calls in total. -/
theorem claim_C8 : ∀ (o : ScanOracle) (b : String) (s : Option String),
    (scan o b s).2.promoter ≤ 1 ∧ (scan o b s).2.article ≤ 2 ∧
      (scan o b s).2.price ≤ 3 ∧ (scan o b s).2.total ≤ 6 := by
  intro o b s
  unfold scan
  by_cases hg : b = "" ∨ pyStrip b = ""
  · rw [if_pos hg]
    simp [Calls.total]
  · rw [if_neg hg]
    dsimp only
    have hp := resolvePromoter_calls o s (decode (pyStrip b)).store_type
    cases hd : (decode (pyStrip b)).article_code with
    | none => simp [Calls.total]
    | some a =>
      dsimp only
      by_cases ha : a = 0
      · subst ha
        rw [if_pos rfl]
        simp [Calls.total]
      · rw [if_neg ha]
        cases hpr : (resolvePromoter o s (decode (pyStrip b)).store_type).1 with
        | none =>
          refine ⟨hp, by simp, by simp, ?_⟩
          simp only [Calls.total]
          omega
        | some pn =>
          have har := resolveArticle_calls o a pn s (decode (pyStrip b)).store_type
          cases hpn : (pn == "") with
          | true =>
            simp only [hpn, if_true]
            refine ⟨hp, by simp, by simp, ?_⟩
            simp only [Calls.total]
            omega
          | false =>
            simp only [hpn, Bool.false_eq_true, if_false]
            cases ha2 : (resolveArticle o a pn s (decode (pyStrip b)).store_type).1 with
            | none =>
              refine ⟨hp, har, by simp, ?_⟩
              simp only [Calls.total]
              omega
            | some pp =>
              have hprice := resolvePrice_calls o pp.1 pp.2 s
              refine ⟨hp, har, hprice, ?_⟩
              simp only [Calls.total]
              omega

/-- A directory that forces the worst case: the store promoter exists but
owns no article, the barcode-format promoter owns the article, and no price
record exists anywhere. -/
def c8Oracle : ScanOracle :=
  ⟨fun _ => some "Store Promoter X",
   fun _ pr => if pr = "Smart & Essentials Barcode" then some "Prod" else none,
   fun _ _ => none, fun _ => none⟩

/-- C8 counterexample: a `]C12` scan against `c8Oracle` performs 1 promoter
lookup, 2 article lookups, and 3 price lookups — 6 external calls, exceeding
the claimed bounds of 2 price lookups and 5 calls in total. -/
theorem claim_C8_cex :
    (scan c8Oracle "]C1200060002249601001" (some "SomeStore")).2 = ⟨1, 2, 3⟩ ∧
      (scan c8Oracle "]C1200060002249601001" (some "SomeStore")).2.total = 6 :=
  ⟨rfl, rfl⟩

/-- A directory that resolves every article to a fixed product, with no
promoter and no price records; used to drive full scans. -/
def stubArticleOracle : ScanOracle :=
  ⟨fun _ => none, fun _ _ => some "Product", fun _ _ => none, fun _ => none⟩

/-- C2: the code formats `weight_code` with `int(weight * 1000)`, truncating
the binary64 product; for the gram count 1001 the float computation gives
`int(1000.9999999999999) = 1000`, so a successful scan of the food_square
barcode `W902979201001` (weight field `01001`) reports `weight_code`
`"01000"` — the claimed `round(weightKg * 1000)` formatting and the grams
round-trip over `[0, 99999]` fail at this input. -/
theorem claim_C2 :
    decode "W902979201001" = ⟨some 9029792, some 1001, "food_square"⟩ ∧
    weight_code_of (some 1001) = "01000" ∧
    (∃ resp : ScanResponse,
      (scan stubArticleOracle "W902979201001" (some "Food Square - Bandra")).1 =
        .ok resp ∧
      resp.weight = some 1001 ∧ resp.weight_code = "01000") ∧
    ¬("01000" = "01001") :=
  ⟨by decide, by decide, ⟨_, rfl, rfl, rfl⟩, by decide⟩
